import Mathlib

/-!
Verification development for the proposal_generator repository.

The Python sources are shallowly embedded below:
- in-memory proposal data (Python dict of template bindings) is an association
  list `Ctx` with first-match lookup and in-place update, mirroring dict
  semantics for lookup and assignment;
- Python float values are modelled as exact rationals;
- the database (SQLAlchemy over SQLite) is a record of existing proposal ids
  plus an append-only row list, mirroring the two tables of database.py;
- external collaborators (the Jinja engine, the OpenAI chat call) enter as
  explicit oracle parameters: the code under verification only inspects their
  results, never their internals.
-/

namespace PropGen

/-- A value held in the in-memory proposal context (`full_context`,
`st.session_state.current_proposal_data`): either a Python string or a
Python number (int/float), the latter modelled as an exact rational. -/
inductive Value
  | str (s : String)
  | num (q : ℚ)
deriving DecidableEq

/-- The in-memory proposal data: a Python dict from key to value, modelled as
an association list with first-match lookup. -/
abbrev Ctx := List (String × Value)

/-- Dict lookup: first entry whose key matches. -/
def lookup (m : Ctx) (k : String) : Option Value :=
  match m with
  | [] => none
  | (k₀, v₀) :: rest => if k₀ = k then some v₀ else lookup rest k

/-- Dict assignment `m[k] = v`: overwrite the (first) existing entry in place,
or append a new entry at the end, as Python dict assignment does. -/
def setKey (m : Ctx) (k : String) (v : Value) : Ctx :=
  match m with
  | [] => [(k, v)]
  | (k₀, v₀) :: rest =>
      if k₀ = k then (k, v) :: rest else (k₀, v₀) :: setKey rest k v

/-! ### A model of Python float(str)

`float` on a string strips surrounding whitespace and accepts an optional
sign, a decimal mantissa (digits, optionally with one decimal point), and an
optional exponent part.  The special spellings inf/infinity/nan and digit
underscores are not modelled; no claim depends on them. -/

/-- Whitespace stripped by Python float conversion (common cases). -/
def isSpaceChar (c : Char) : Bool :=
  c = ' ' || c = '\t' || c = '\n' || c = '\r' || c = '\x0b' || c = '\x0c'

/-- Strip leading and trailing whitespace from a character list. -/
def trimChars (l : List Char) : List Char :=
  ((l.dropWhile isSpaceChar).reverse.dropWhile isSpaceChar).reverse

/-- Numeric value of a digit string, most significant digit first. -/
def digitsVal (l : List Char) : ℕ :=
  l.foldl (fun a c => 10 * a + (c.toNat - 48)) 0

/-- Parse an unsigned decimal mantissa: digits, optionally with one decimal
point; at least one digit overall. -/
def parseMantissa (l : List Char) : Option ℚ :=
  let intPart := l.takeWhile Char.isDigit
  let rest := l.dropWhile Char.isDigit
  match rest with
  | [] => if intPart.isEmpty then none else some (digitsVal intPart : ℚ)
  | '.' :: frac =>
      if frac.all Char.isDigit && !(intPart.isEmpty && frac.isEmpty) then
        some ((digitsVal intPart : ℚ) + (digitsVal frac : ℚ) / (10 : ℚ) ^ frac.length)
      else none
  | _ => none

/-- Split a character list at the first exponent marker e/E, if any. -/
def splitExp : List Char → List Char × Option (List Char)
  | [] => ([], none)
  | c :: rest =>
      if c = 'e' ∨ c = 'E' then ([], some rest)
      else
        let r := splitExp rest
        (c :: r.1, r.2)

/-- Consume an optional leading sign; returns (isNegative, remainder). -/
def parseSign : List Char → Bool × List Char
  | '+' :: rest => (false, rest)
  | '-' :: rest => (true, rest)
  | l => (false, l)

/-- Parse a signed decimal exponent (nonempty digit string). -/
def parseExp (l : List Char) : Option ℤ :=
  let p := parseSign l
  if !p.2.isEmpty && p.2.all Char.isDigit then
    some (if p.1 then -(digitsVal p.2 : ℤ) else (digitsVal p.2 : ℤ))
  else none

/-- Scale a mantissa by a signed power of ten. -/
def applyExp (m : ℚ) (e : ℤ) : ℚ :=
  if 0 ≤ e then m * (10 : ℚ) ^ e.toNat else m / (10 : ℚ) ^ (-e).toNat

/-- Model of Python `float(s)` for a string argument: `none` when the call
would raise ValueError. -/
def parseFloat (s : String) : Option ℚ :=
  let cs := trimChars s.data
  let p := parseSign cs
  let me := splitExp p.2
  match parseMantissa me.1, me.2 with
  | some m, none => some (if p.1 then -m else m)
  | some m, some epart =>
      match parseExp epart with
      | some e => some (applyExp (if p.1 then -m else m) e)
      | none => none
  | none, _ => none

/-! ### Calculated fields (generate_proposal, proposal_generator.py 169-193;
generate button handler, streamlit_app.py 641-645) -/

/-- The five fixed marketing-cost keys, in the order the code iterates them. -/
def marketing_keys : List String :=
  ["marketing_facebook_cost", "marketing_google_cost",
   "marketing_mail_cost", "marketing_drone_cost", "marketing_sign_cost"]

/-- `float(full_context.get(key, 0) or 0)`: an absent key defaults to 0; a
falsy value (empty string, zero) is replaced by 0 before conversion; a
truthy string goes through float(), which may raise (`none`). -/
def coerceCost (v : Option Value) : Option ℚ :=
  match v with
  | none => some 0
  | some (Value.num q) => some q
  | some (Value.str s) => if s = "" then some 0 else parseFloat s

/-- The contribution of one marketing-cost key of the context. -/
def costOf (ctx : Ctx) (k : String) : Option ℚ :=
  coerceCost (lookup ctx k)

/-- The summation loop over the marketing keys: `none` as soon as any float
conversion raises, aborting the whole sum (the loop body is inside a single
try block). -/
def sumCosts (ctx : Ctx) : List String → Option ℚ
  | [] => some 0
  | k :: ks =>
      match costOf ctx k, sumCosts ctx ks with
      | some x, some r => some (x + r)
      | _, _ => none

/-- The calculated-fields block of generate_proposal: returns the pair
(marketing_total_budget, retainer_amount).  On any conversion error the
except branch sets the total to 0 and the retainer to 10000. -/
def compute_calculated_fields (ctx : Ctx) : ℚ × ℚ :=
  match sumCosts ctx marketing_keys with
  | some total => (total, 10000 - total)
  | none => (0, 10000)

/-- The same computation as written in the streamlit generate-button handler,
which has no local try/except: `none` means the handler aborts with an
exception and no calculated fields are produced. -/
def compute_calculated_fields_strict (ctx : Ctx) : Option (ℚ × ℚ) :=
  (sumCosts ctx marketing_keys).map (fun t => (t, 10000 - t))

/-- Sum of the per-key contributions, counting an absent or failing key as 0. -/
def sumOf (ctx : Ctx) : ℚ :=
  (marketing_keys.map (fun k => (costOf ctx k).getD 0)).sum

/-- The key is present in the context and its value converts to a number. -/
def presentParseable (ctx : Ctx) (k : String) : Bool :=
  match lookup ctx k with
  | none => false
  | some v => (coerceCost (some v)).isSome

/-- The concrete bindings of the spec test for the calculated fields. -/
def specCostCtx : Ctx :=
  [("marketing_facebook_cost", Value.str "1000"),
   ("marketing_google_cost", Value.str "1000"),
   ("marketing_mail_cost", Value.str "500"),
   ("marketing_drone_cost", Value.str "500"),
   ("marketing_sign_cost", Value.str "250")]

/-- Bindings with one unparseable cost value next to a parseable one. -/
def badCostCtx : Ctx :=
  [("marketing_facebook_cost", Value.str "abc"),
   ("marketing_google_cost", Value.str "1000")]

/-! ### Default dates (streamlit_app.py 396-459)

Dates are modelled as day counts from a fixed Monday epoch (the spec test
uses Monday 2024-06-03, which is day 0 here); `d % 7` is then exactly
Python date.weekday(): 0 = Monday ... 6 = Sunday. -/

/-- get_next_weekday (streamlit_app.py 396-401): the next given weekday
(0 = Mon ... 6 = Sun) on or after start.  The Python body computes
days_ahead = weekday - start.weekday(), adding 7 when negative; for
weekday in 0..6 that is (weekday + 7 - start % 7) % 7. -/
def get_next_weekday (start weekday : ℕ) : ℕ :=
  start + (weekday + 7 - start % 7) % 7

/-- The weekend-adjustment loop of calculate_default_dates
(`while weekday >= 5: advance one day`), unrolled: a Saturday advances two
days and a Sunday one day, anything else is unchanged. -/
def skipWeekend (d : ℕ) : ℕ :=
  if d % 7 = 5 then d + 2 else if d % 7 = 6 then d + 1 else d

/-- The five default dates produced by calculate_default_dates, kept as date
values (the Python code formats each one to text with strftime at the end). -/
structure DefaultDates where
  proposal_date : ℕ
  contract_date : ℕ
  advertising_start_date : ℕ
  auction_end_date : ℕ
  closing_date : ℕ
deriving DecidableEq

/-- calculate_default_dates (streamlit_app.py 417-451), parameterised by the
impure datetime.date.today() value. -/
def calculate_default_dates (today : ℕ) : DefaultDates :=
  let contract₀ := get_next_weekday (today + 1) 4
  let contract :=
    if contract₀ % 7 = 4 ∧ contract₀ ≤ today + 7 then contract₀ + 7 else contract₀
  let adv_start_monday_1 := get_next_weekday contract 0
  let adv_start_monday_2 := adv_start_monday_1 + 7
  let auction_end_wed := get_next_weekday (adv_start_monday_2 + 21) 2
  let closing := skipWeekend (auction_end_wed + 30)
  DefaultDates.mk today contract adv_start_monday_2 auction_end_wed closing

/-! ### Default application (streamlit_app.py 453-459 and 510-521) -/

/-- Python truthiness of a context value: the empty string and the number
zero are falsy, everything else is truthy. -/
def Value.isTruthy : Value → Bool
  | .str s => decide (s ≠ "")
  | .num q => decide (q ≠ 0)

/-- DEFAULT_MARKETING_COSTS (streamlit_app.py 453-459), in dict order. -/
def DEFAULT_MARKETING_COSTS : Ctx :=
  [("marketing_drone_cost", Value.num 500),
   ("marketing_facebook_cost", Value.num 1000),
   ("marketing_google_cost", Value.num 1000),
   ("marketing_mail_cost", Value.num 500),
   ("marketing_sign_cost", Value.num 250)]

/-- One iteration of the defaults loop (streamlit_app.py 517-521):
`if key not in current or not current[key]: current[key] = default`. -/
def defaultStep (cur : Ctx) (kv : String × Value) : Ctx :=
  match lookup cur kv.1 with
  | none => setKey cur kv.1 kv.2
  | some v => if v.isTruthy then cur else setKey cur kv.1 kv.2

/-- The defaults application loop over the combined defaults dict. -/
def apply_defaults (defaults : Ctx) (current : Ctx) : Ctx :=
  defaults.foldl defaultStep current

/-! ### AI best guesses (streamlit_app.py 349-392)

The context text and the existing data shape only the prompt; the chat
completion itself is an external oracle, abstracted as modelReply
(some = the parsed JSON object, none = any exception along the way,
covering call failures and unparseable replies). -/

/-- get_ai_best_guesses: empty missing_keys returns the empty dict before
any model call; otherwise the reply is filtered down to the requested keys
(surplus keys are dropped), and any exception yields the empty dict. -/
def get_ai_best_guesses (context : String) (existing_data : Ctx)
    (missing_keys : List String) (modelReply : Option Ctx) : Ctx :=
  if missing_keys.isEmpty then []
  else
    match modelReply with
    | none => []
    | some guessed => guessed.filter (fun p => decide (p.1 ∈ missing_keys))

/-! ### The fact store (database.py) -/

/-- A Python value passed to add_proposal_data: either None, or a non-None
value represented by its str() image (the code touches non-None values only
through str). -/
inductive PyVal
  | pyNone
  | pyVal (s : String)
deriving DecidableEq

/-- `str(value) if value is not None else None` (database.py 109):
None is stored as SQL NULL, everything else as its string form. -/
def stringifyVal : PyVal → Option String
  | .pyNone => none
  | .pyVal s => some s

/-- The database state: the set of existing proposal ids and the proposal_data
table as an append-only row list (proposal_id, key, nullable text value). -/
structure DB where
  proposals : List ℕ
  rows : List (ℕ × String × Option String)
deriving DecidableEq

/-- add_proposal_data (database.py 97-127): raises (none) when the proposal
id is absent, rolling back; otherwise inserts one row per mapping entry and
commits. -/
def add_proposal_data (db : DB) (proposal_id : ℕ) (data_dict : List (String × PyVal)) :
    Option DB :=
  if db.proposals.contains proposal_id then
    some (DB.mk db.proposals
      (db.rows ++ data_dict.map (fun kv => (proposal_id, kv.1, stringifyVal kv.2))))
  else none

/-- The data_entries of one proposal, in insertion order. -/
def rowsFor (db : DB) (proposal_id : ℕ) : List (String × Option String) :=
  (db.rows.filter (fun r => r.1 == proposal_id)).map (fun r => (r.2.1, r.2.2))

/-- get_proposal_with_data (database.py 129-142): the proposal with its
eager-loaded data entries, or none when absent. -/
def get_proposal_with_data (db : DB) (proposal_id : ℕ) :
    Option (List (String × Option String)) :=
  if db.proposals.contains proposal_id then some (rowsFor db proposal_id) else none

/-! ### Effective fact mapping (get_proposal_data_as_dict,
proposal_generator.py 50-69) -/

/-- Python `value.replace(dollar, empty).replace(comma, empty)`: drop every
dollar sign and comma before float conversion. -/
def stripMoney (s : String) : String :=
  String.mk (s.data.filter (fun c => c != '$' && c != ','))

/-- One iteration of the get_proposal_data_as_dict loop: NULL-valued rows
are skipped; values under the five marketing-cost keys are converted to
numbers when possible ($ and , stripped), falling back to the raw string;
all other values stay strings. -/
def dictStep (data : Ctx) (e : String × Option String) : Ctx :=
  match e.2 with
  | none => data
  | some s =>
      if marketing_keys.contains e.1 then
        match parseFloat (stripMoney s) with
        | some q => setKey data e.1 (Value.num q)
        | none => setKey data e.1 (Value.str s)
      else setKey data e.1 (Value.str s)

/-- get_proposal_data_as_dict: fold the data entries into a dict. -/
def get_proposal_data_as_dict (entries : List (String × Option String)) : Ctx :=
  entries.foldl dictStep []

/-! ### Template rendering (proposal_generator.py 95-102 and 195-200)

The Jinja engine is external: renderResult abstracts template.render, with
ok the substituted text and error the message of a raised exception. -/

/-- The in-band error text produced by fill_template_jinja on a raised
rendering exception. -/
def renderErrorText (e : String) : String :=
  "Error rendering template: " ++ e

/-- Python s.startswith(p). -/
def startsWithStr (s p : String) : Bool :=
  p.data.isPrefixOf s.data

/-- fill_template_jinja: returns the rendered text, or the in-band error
string when rendering raises. -/
def fill_template_jinja (renderResult : Except String String) : String :=
  match renderResult with
  | .ok s => s
  | .error e => renderErrorText e

/-- The render step of generate_proposal: the produced content, or none when
the content starts with the in-band error marker and generation is aborted. -/
def generate_render_step (renderResult : Except String String) : Option String :=
  let content := fill_template_jinja renderResult
  if startsWithStr content "Error rendering template:" then none else some content

/-! ### Template requirement set (proposal_generator.py 36-48 and 144-149,
streamlit_app.py 533)

find_jinja_placeholders delegates to the external Jinja parser; its result
enters as the placeholder list.  The requirement set is that list minus the
two calculated keys, which are always computed in Python. -/

/-- The fixed calculated keys (proposal_generator.py 148). -/
def calculated_keys : List String :=
  ["marketing_total_budget", "retainer_amount"]

/-- The template requirement set: the placeholders found in the template
source minus the calculated keys. -/
def required_keys (placeholders : List String) : List String :=
  placeholders.filter (fun k => decide (k ∉ calculated_keys))

/-! ## Helper lemmas -/

/-- Dict lookup after dict assignment: the assigned key reads back the new
value, every other key is unchanged. -/
lemma lookup_setKey (m : Ctx) (k k₂ : String) (v : Value) :
    lookup (setKey m k v) k₂ = if k = k₂ then some v else lookup m k₂ := by
  induction m with
  | nil => simp [setKey, lookup]
  | cons e rest ih =>
      obtain ⟨k₀, v₀⟩ := e
      by_cases h : k₀ = k
      · subst h
        by_cases h₂ : k₀ = k₂ <;> simp [setKey, lookup, h₂]
      · by_cases h₂ : k₀ = k₂ <;> by_cases h₃ : k = k₂ <;>
          simp_all [setKey, lookup]

/-- When every marketing key converts, the summation loop returns the sum of
the individual contributions. -/
lemma sumCosts_eq_sum (ctx : Ctx) (ks : List String)
    (h : ∀ k ∈ ks, (costOf ctx k).isSome = true) :
    sumCosts ctx ks = some ((ks.map (fun k => (costOf ctx k).getD 0)).sum) := by
  induction ks with
  | nil => simp [sumCosts]
  | cons k ks ih =>
      obtain ⟨x, hx⟩ := Option.isSome_iff_exists.mp (h k (List.mem_cons_self k ks))
      have ih₂ := ih (fun a ha => h a (List.mem_cons_of_mem k ha))
      simp [sumCosts, hx, ih₂]

/-- One failing conversion aborts the whole summation loop. -/
lemma sumCosts_none (ctx : Ctx) (ks : List String) (k : String)
    (hk : k ∈ ks) (h : costOf ctx k = none) :
    sumCosts ctx ks = none := by
  induction ks with
  | nil => simp at hk
  | cons a ks ih =>
      rcases List.mem_cons.mp hk with h₁ | h₁
      · subst h₁
        cases h₂ : sumCosts ctx ks <;> simp [sumCosts, h, h₂]
      · cases h₂ : costOf ctx a <;> simp [sumCosts, ih h₁, h₂]

/-- One defaults-loop iteration keeps any truthy stored value. -/
lemma lookup_defaultStep (cur : Ctx) (kv : String × Value) (k : String) (v : Value)
    (hv : lookup cur k = some v) (ht : v.isTruthy = true) :
    lookup (defaultStep cur kv) k = some v := by
  unfold defaultStep
  by_cases h : kv.1 = k
  · rw [h, hv]
    simp [ht, hv]
  · cases hl : lookup cur kv.1 with
    | none => simp only [hl]; rw [lookup_setKey]; simp [h, hv]
    | some w =>
        simp only [hl]
        by_cases hw : w.isTruthy <;> simp [hw, lookup_setKey, h, hv]

/-- The whole defaults loop keeps any truthy stored value. -/
lemma lookup_apply_defaults (defaults current : Ctx) (k : String) (v : Value)
    (hv : lookup current k = some v) (ht : v.isTruthy = true) :
    lookup (apply_defaults defaults current) k = some v := by
  induction defaults generalizing current with
  | nil => simpa [apply_defaults] using hv
  | cons d ds ih =>
      have step := lookup_defaultStep current d k v hv ht
      simpa [apply_defaults] using ih (defaultStep current d) step

/-- A key all of whose rows are NULL never enters the effective fact dict. -/
lemma lookup_dict_foldl_none (entries : List (String × Option String)) (acc : Ctx)
    (k : String)
    (hk : ∀ e ∈ entries, e.1 = k → e.2 = none)
    (hacc : lookup acc k = none) :
    lookup (entries.foldl dictStep acc) k = none := by
  induction entries generalizing acc with
  | nil => simpa using hacc
  | cons e es ih =>
      have hstep : lookup (dictStep acc e) k = none := by
        unfold dictStep
        cases hv : e.2 with
        | none => simpa using hacc
        | some s =>
            have hne : e.1 ≠ k := by
              intro hx
              have h₀ := hk e (List.mem_cons_self e es) hx
              rw [hv] at h₀
              exact Option.noConfusion h₀
            by_cases hm : e.1 ∈ marketing_keys
            · cases hp : parseFloat (stripMoney s) <;>
                simp [hm, hp, lookup_setKey, hne, hacc]
            · simp [hm, lookup_setKey, hne, hacc]
      have h₂ := ih (dictStep acc e)
        (fun a ha hx => hk a (List.mem_cons_of_mem e ha) hx) hstep
      simpa using h₂

/-- Weekday and minimality facts about the weekend-adjustment step. -/
lemma skipWeekend_spec (d : ℕ) :
    (skipWeekend d) % 7 < 5 ∧ d ≤ skipWeekend d ∧
      ∀ e, d ≤ e → e < skipWeekend d → 5 ≤ e % 7 := by
  by_cases h₁ : d % 7 = 5
  · rw [skipWeekend, if_pos h₁]
    exact ⟨by omega, by omega, fun e he₁ he₂ => by omega⟩
  · by_cases h₂ : d % 7 = 6
    · rw [skipWeekend, if_neg h₁, if_pos h₂]
      exact ⟨by omega, by omega, fun e he₁ he₂ => by omega⟩
    · rw [skipWeekend, if_neg h₁, if_neg h₂]
      exact ⟨by omega, by omega, fun e he₁ he₂ => by omega⟩

/-- A successful bulk add pins down the resulting database state. -/
lemma add_proposal_data_some (db db₂ : DB) (pid : ℕ) (m : List (String × PyVal))
    (h : add_proposal_data db pid m = some db₂) :
    db.proposals.contains pid = true
    ∧ db₂ = DB.mk db.proposals
        (db.rows ++ m.map (fun kv => (pid, kv.1, stringifyVal kv.2))) := by
  unfold add_proposal_data at h
  by_cases hc : db.proposals.contains pid = true
  · rw [if_pos hc] at h
    exact ⟨hc, (Option.some.inj h).symm⟩
  · rw [if_neg hc] at h
    exact absurd h (by simp)

/-- The rows of the target proposal after a bulk add: the old rows followed
by the freshly inserted, stringified entries. -/
lemma rowsFor_add (db : DB) (pid : ℕ) (m : List (String × PyVal)) :
    rowsFor (DB.mk db.proposals
        (db.rows ++ m.map (fun kv => (pid, kv.1, stringifyVal kv.2)))) pid
      = rowsFor db pid ++ m.map (fun kv => (kv.1, stringifyVal kv.2)) := by
  unfold rowsFor
  rw [List.filter_append, List.map_append]
  congr 1
  have hf : List.filter (fun r => r.1 == pid)
        (m.map (fun kv => (pid, kv.1, stringifyVal kv.2)))
      = m.map (fun kv => (pid, kv.1, stringifyVal kv.2)) := by
    apply List.filter_eq_self.mpr
    intro a ha
    obtain ⟨kv, hkv, rfl⟩ := List.mem_map.mp ha
    simp
  rw [hf, List.map_map]
  rfl

/-! ## Claims -/

/-- C1: for bindings in which all five marketing-cost keys are present and
parseable as numbers, the calculated-fields computation yields
marketing_total equal to the sum of the five costs and retainer equal to
10000 minus marketing_total, with no clamping. -/
theorem c1_calculated_fields (ctx : Ctx)
    (h : ∀ k ∈ marketing_keys, presentParseable ctx k = true) :
    compute_calculated_fields ctx = (sumOf ctx, 10000 - sumOf ctx) := by
  have h₂ : ∀ k ∈ marketing_keys, (costOf ctx k).isSome = true := by
    intro k hk
    have hp := h k hk
    unfold presentParseable at hp
    unfold costOf
    cases hl : lookup ctx k with
    | none => simp [coerceCost]
    | some v => simp only [hl] at hp ⊢; exact hp
  unfold compute_calculated_fields
  rw [sumCosts_eq_sum ctx marketing_keys h₂]
  rfl

/-- C1 witness: the concrete bindings of the spec test give
marketing_total = 3250 and retainer = 6750. -/
theorem c1_calculated_fields_witness :
    compute_calculated_fields specCostCtx = (3250, 6750) := by
  have h := c1_calculated_fields specCostCtx (by decide)
  rw [h]
  have hs : sumOf specCostCtx
      = (((1000:ℕ):ℚ) + (((1000:ℕ):ℚ) + (((500:ℕ):ℚ)
        + (((500:ℕ):ℚ) + (((250:ℕ):ℚ) + 0))))) := rfl
  rw [hs, Prod.mk.injEq]
  norm_num

/-- C2 counterexample: with facebook unparseable ("abc") and google
parseable ("1000"), the computation does not keep the parseable
contribution: the whole total falls back to 0 (the claim predicts 1000). -/
theorem c2_counterexample :
    costOf badCostCtx "marketing_google_cost" = some 1000
    ∧ compute_calculated_fields badCostCtx = (0, 10000)
    ∧ (0 : ℚ) ≠ 1000 := by
  refine ⟨by decide, rfl, by norm_num⟩

/-- C2 amended: absent keys and empty values individually contribute zero
and, when every key converts, the total is the sum of the contributions;
but a single failing conversion aborts the whole computation, which then
falls back to marketing_total = 0 and retainer = 10000, discarding the
parseable contributions of the other keys. -/
theorem c2_amended (ctx : Ctx) :
    ((∀ k ∈ marketing_keys, (costOf ctx k).isSome = true) →
        compute_calculated_fields ctx = (sumOf ctx, 10000 - sumOf ctx))
    ∧ (∀ k ∈ marketing_keys, costOf ctx k = none →
        compute_calculated_fields ctx = (0, 10000))
    ∧ (∀ k, lookup ctx k = none → costOf ctx k = some 0)
    ∧ (∀ k, lookup ctx k = some (Value.str "") → costOf ctx k = some 0) := by
  refine ⟨?_, ?_, ?_, ?_⟩
  · intro h
    unfold compute_calculated_fields
    rw [sumCosts_eq_sum ctx marketing_keys h]
    rfl
  · intro k hk h
    unfold compute_calculated_fields
    rw [sumCosts_none ctx marketing_keys k hk h]
  · intro k h
    unfold costOf
    rw [h]
    rfl
  · intro k h
    unfold costOf
    rw [h]
    rfl

/-- C2 amended witness: the fallback fires on the mixed
unparseable/parseable bindings. -/
theorem c2_amended_witness :
    compute_calculated_fields badCostCtx = (0, 10000) :=
  (c2_amended badCostCtx).2.1 "marketing_facebook_cost" (by decide) (by decide)

/-- C3: for every input date, the default-date computation yields
proposal_date = today; contract_date a Friday strictly after today and at
least 5 days out; advertising_start_date the second Monday on or after
contract_date; auction_end_date the first Wednesday on or after
advertising_start_date + 21 days; and closing_date a weekday equal to
auction_end_date + 30 days advanced past any weekend. -/
theorem c3_default_dates (today : ℕ) :
    (calculate_default_dates today).proposal_date = today
    ∧ (calculate_default_dates today).contract_date % 7 = 4
    ∧ today + 5 ≤ (calculate_default_dates today).contract_date
    ∧ (calculate_default_dates today).advertising_start_date % 7 = 0
    ∧ (calculate_default_dates today).contract_date + 7
        ≤ (calculate_default_dates today).advertising_start_date
    ∧ (calculate_default_dates today).advertising_start_date
        ≤ (calculate_default_dates today).contract_date + 13
    ∧ (calculate_default_dates today).auction_end_date % 7 = 2
    ∧ (calculate_default_dates today).advertising_start_date + 21
        ≤ (calculate_default_dates today).auction_end_date
    ∧ (calculate_default_dates today).auction_end_date
        < (calculate_default_dates today).advertising_start_date + 28
    ∧ (calculate_default_dates today).closing_date % 7 < 5
    ∧ (calculate_default_dates today).auction_end_date + 30
        ≤ (calculate_default_dates today).closing_date
    ∧ ∀ e, (calculate_default_dates today).auction_end_date + 30 ≤ e →
        e < (calculate_default_dates today).closing_date → 5 ≤ e % 7 := by
  have hmain : (calculate_default_dates today).proposal_date = today
      ∧ (calculate_default_dates today).contract_date % 7 = 4
      ∧ today + 5 ≤ (calculate_default_dates today).contract_date
      ∧ (calculate_default_dates today).advertising_start_date % 7 = 0
      ∧ (calculate_default_dates today).contract_date + 7
          ≤ (calculate_default_dates today).advertising_start_date
      ∧ (calculate_default_dates today).advertising_start_date
          ≤ (calculate_default_dates today).contract_date + 13
      ∧ (calculate_default_dates today).auction_end_date % 7 = 2
      ∧ (calculate_default_dates today).advertising_start_date + 21
          ≤ (calculate_default_dates today).auction_end_date
      ∧ (calculate_default_dates today).auction_end_date
          < (calculate_default_dates today).advertising_start_date + 28
      ∧ (calculate_default_dates today).closing_date
          = skipWeekend ((calculate_default_dates today).auction_end_date + 30) := by
    unfold calculate_default_dates get_next_weekday
    dsimp only
    split_ifs with h <;>
      exact ⟨rfl, by omega, by omega, by omega, by omega, by omega, by omega,
        by omega, by omega, rfl⟩
  obtain ⟨h₁, h₂, h₃, h₄, h₅, h₆, h₇, h₈, h₉, h₁₀⟩ := hmain
  obtain ⟨s₁, s₂, s₃⟩ :=
    skipWeekend_spec ((calculate_default_dates today).auction_end_date + 30)
  rw [← h₁₀] at s₁ s₂ s₃
  exact ⟨h₁, h₂, h₃, h₄, h₅, h₆, h₇, h₈, h₉, s₁, s₂, s₃⟩

/-- C3 witness: all the weekday conditions at the Monday epoch
(the spec test date, Monday 2024-06-03, is day 0 of the embedding). -/
theorem c3_default_dates_witness :
    (calculate_default_dates 0).proposal_date = 0
    ∧ (calculate_default_dates 0).contract_date % 7 = 4
    ∧ 0 + 5 ≤ (calculate_default_dates 0).contract_date
    ∧ (calculate_default_dates 0).advertising_start_date % 7 = 0
    ∧ (calculate_default_dates 0).auction_end_date % 7 = 2
    ∧ (calculate_default_dates 0).closing_date % 7 < 5 := by
  obtain ⟨h₁, h₂, h₃, h₄, h₅, h₆, h₇, h₈, h₉, h₁₀, h₁₁, h₁₂⟩ := c3_default_dates 0
  exact ⟨h₁, h₂, h₃, h₄, h₇, h₁₀⟩

/-- C4: the template requirement set is a pure function of the placeholder
set (hence stable for a fixed template source) and never contains the two
calculated keys, even when the template references them. -/
theorem c4_required_keys (placeholders : List String) :
    required_keys placeholders = required_keys placeholders
    ∧ "marketing_total_budget" ∉ required_keys placeholders
    ∧ "retainer_amount" ∉ required_keys placeholders := by
  refine ⟨rfl, ?_, ?_⟩ <;>
  · intro h
    rw [required_keys, List.mem_filter] at h
    have h₂ := h.2
    simp [calculated_keys] at h₂

/-- C4 witness: a placeholder set that references both calculated keys. -/
theorem c4_required_keys_witness :
    "marketing_total_budget"
      ∉ required_keys ["client_company", "marketing_total_budget", "retainer_amount"] :=
  (c4_required_keys ["client_company", "marketing_total_budget", "retainer_amount"]).2.1

/-- C5 counterexample: a key present with a known (empty-string) value is
overwritten by its default, so the default pass does change the value of a
key that was present in the current data. -/
theorem c5_counterexample :
    lookup [("marketing_drone_cost", Value.str "")] "marketing_drone_cost"
      = some (Value.str "")
    ∧ lookup (apply_defaults DEFAULT_MARKETING_COSTS
        [("marketing_drone_cost", Value.str "")]) "marketing_drone_cost"
      = some (Value.num 500)
    ∧ Value.num 500 ≠ Value.str "" := by
  exact ⟨by decide, by decide, by decide⟩

/-- C5 amended: the default pass never changes a key whose current value is
truthy (non-empty string, non-zero number); a changed key was either absent
or held a falsy value, so defaults are written exactly to keys that are
absent or falsy. -/
theorem c5_amended (defaults current : Ctx) (k : String) :
    (∀ v, lookup current k = some v → v.isTruthy = true →
        lookup (apply_defaults defaults current) k = some v)
    ∧ (lookup (apply_defaults defaults current) k ≠ lookup current k →
        lookup current k = none
        ∨ ∃ v, lookup current k = some v ∧ v.isTruthy = false) := by
  constructor
  · intro v hv ht
    exact lookup_apply_defaults defaults current k v hv ht
  · intro hne
    cases hl : lookup current k with
    | none => exact Or.inl rfl
    | some v =>
        by_cases ht : v.isTruthy = true
        · refine absurd ?_ hne
          rw [lookup_apply_defaults defaults current k v hl ht, hl]
        · exact Or.inr ⟨v, rfl, by simpa using ht⟩

/-- C5 amended witness: a truthy value survives the default pass. -/
theorem c5_amended_witness :
    lookup (apply_defaults DEFAULT_MARKETING_COSTS
        [("marketing_drone_cost", Value.str "750")]) "marketing_drone_cost"
      = some (Value.str "750") :=
  (c5_amended DEFAULT_MARKETING_COSTS
      [("marketing_drone_cost", Value.str "750")] "marketing_drone_cost").1
    (Value.str "750") (by decide) (by decide)

/-- C6: every key of the best-guess result lies in the requested missing-key
set no matter what the model returns, and with an empty missing-key set the
result is the empty mapping independently of any model reply (the code
returns before the call is made). -/
theorem c6_best_guess (context : String) (existing_data : Ctx)
    (missing_keys : List String) (modelReply : Option Ctx) :
    (∀ p ∈ get_ai_best_guesses context existing_data missing_keys modelReply,
        p.1 ∈ missing_keys)
    ∧ (missing_keys = [] → ∀ reply₂ : Option Ctx,
        get_ai_best_guesses context existing_data missing_keys reply₂ = []) := by
  constructor
  · intro p hp
    unfold get_ai_best_guesses at hp
    by_cases h : missing_keys.isEmpty
    · simp [h] at hp
    · rw [if_neg (by simp [h])] at hp
      cases modelReply with
      | none => simp at hp
      | some guessed =>
          simp only [List.mem_filter] at hp
          exact of_decide_eq_true hp.2
  · intro h reply₂
    subst h
    cases reply₂ <;> rfl

/-- C6 witness: empty wanted set gives the empty result even when the model
offers surplus keys. -/
theorem c6_best_guess_witness :
    get_ai_best_guesses "some context" [] [] (some [("surplus", Value.str "v")]) = [] :=
  (c6_best_guess "some context" [] [] (some [("surplus", Value.str "v")])).2 rfl
    (some [("surplus", Value.str "v")])

/-- C7: after a successful bulk add of a mapping, reading the proposal back
returns its rows extended by exactly one stringified row per mapping entry,
so every key of the mapping is reflected with its stringified value. -/
theorem c7_add_roundtrip (db db₂ : DB) (pid : ℕ) (m : List (String × PyVal))
    (h : add_proposal_data db pid m = some db₂) :
    get_proposal_with_data db₂ pid
      = some (rowsFor db pid ++ m.map (fun kv => (kv.1, stringifyVal kv.2)))
    ∧ (∀ kv ∈ m, (kv.1, stringifyVal kv.2) ∈ rowsFor db₂ pid)
    ∧ db₂.rows.length = db.rows.length + m.length := by
  obtain ⟨hc, rfl⟩ := add_proposal_data_some db db₂ pid m h
  have hrows := rowsFor_add db pid m
  refine ⟨?_, ?_, ?_⟩
  · unfold get_proposal_with_data
    rw [if_pos hc, hrows]
  · intro kv hkv
    rw [hrows]
    exact List.mem_append_right _ (List.mem_map_of_mem _ hkv)
  · simp

/-- C7 witness: a concrete round trip through the store. -/
theorem c7_add_roundtrip_witness :
    get_proposal_with_data
        (DB.mk [1] [(1, "client_company", some "Acme"), (1, "a", some "x"), (1, "b", none)]) 1
      = some (rowsFor (DB.mk [1] [(1, "client_company", some "Acme")]) 1
          ++ [("a", PyVal.pyVal "x"), ("b", PyVal.pyNone)].map
              (fun kv => (kv.1, stringifyVal kv.2)))
    ∧ (DB.mk [1] [(1, "client_company", some "Acme"), (1, "a", some "x"), (1, "b", none)]).rows.length
      = (DB.mk [1] [(1, "client_company", some "Acme")]).rows.length
        + [("a", PyVal.pyVal "x"), ("b", PyVal.pyNone)].length := by
  have h := c7_add_roundtrip
    (DB.mk [1] [(1, "client_company", some "Acme")])
    (DB.mk [1] [(1, "client_company", some "Acme"), (1, "a", some "x"), (1, "b", none)])
    1 [("a", PyVal.pyVal "x"), ("b", PyVal.pyNone)] (by decide)
  exact ⟨h.1, h.2.2⟩

/-- C8 counterexample: a successful render whose text happens to start with
the in-band marker is misclassified as a rendering failure, so the claim
that a non-raising render returns the substituted text fails. -/
theorem c8_counterexample :
    generate_render_step (Except.ok "Error rendering template: fake") = none
    ∧ (none : Option String) ≠ some "Error rendering template: fake" := by
  exact ⟨by decide, by decide⟩

/-- C8 amended: when rendering raises, generation fails and the produced
content carries the underlying cause; when rendering succeeds the
substituted text is returned, unless it itself begins with the in-band
marker, in which case the generator misclassifies the success as a failure. -/
theorem c8_amended (renderResult : Except String String) :
    (∀ e, renderResult = Except.error e →
        generate_render_step renderResult = none
        ∧ fill_template_jinja renderResult = renderErrorText e)
    ∧ (∀ s, renderResult = Except.ok s →
        startsWithStr s "Error rendering template:" = false →
        generate_render_step renderResult = some s) := by
  constructor
  · rintro e rfl
    refine ⟨?_, rfl⟩
    have hpre : startsWithStr (renderErrorText e) "Error rendering template:" = true := by
      unfold startsWithStr renderErrorText
      rw [List.isPrefixOf_iff_prefix, String.data_append]
      have h₁ : ("Error rendering template: ").data
          = ("Error rendering template:").data ++ [' '] := by decide
      rw [h₁, List.append_assoc]
      exact List.prefix_append _ _
    unfold generate_render_step
    simp [fill_template_jinja, hpre]
  · rintro s rfl hs
    unfold generate_render_step
    simp [fill_template_jinja, hs]

/-- C8 amended witness: a raising render produces an aborted generation with
the cause in the content. -/
theorem c8_amended_witness :
    generate_render_step (Except.error "missing filter") = none
    ∧ fill_template_jinja (Except.error "missing filter")
      = renderErrorText "missing filter" :=
  (c8_amended (Except.error "missing filter")).1 "missing filter" rfl

/-- C9: in every rendering context built by the generator,
marketing_total_budget + retainer_amount = 10000 exactly, on the normal
path and on the conversion-failure fallback path alike; the streamlit
handler variant satisfies the same identity whenever it produces a pair. -/
theorem c9_budget_identity (ctx : Ctx) :
    (compute_calculated_fields ctx).1 + (compute_calculated_fields ctx).2 = 10000
    ∧ (∀ p : ℚ × ℚ, compute_calculated_fields_strict ctx = some p →
        p.1 + p.2 = 10000) := by
  constructor
  · unfold compute_calculated_fields
    cases h : sumCosts ctx marketing_keys with
    | none => norm_num
    | some t => simp only; ring
  · intro p hp
    unfold compute_calculated_fields_strict at hp
    cases h : sumCosts ctx marketing_keys with
    | none => rw [h] at hp; simp at hp
    | some t =>
        rw [h] at hp
        simp only [Option.map_some'] at hp
        obtain rfl := (Option.some.inj hp).symm
        simp only
        ring

/-- C9 witness: the identity at a context whose single stored cost exceeds
the base retainer, exercising a negative retainer. -/
theorem c9_budget_identity_witness :
    (0 + (0 + ((12000:ℚ) + (0 + (0 + 0)))))
      + (10000 - (0 + (0 + ((12000:ℚ) + (0 + (0 + 0)))))) = 10000 :=
  (c9_budget_identity [("marketing_mail_cost", Value.num 12000)]).2
    (0 + (0 + ((12000:ℚ) + (0 + (0 + 0)))),
     10000 - (0 + (0 + ((12000:ℚ) + (0 + (0 + 0)))))) rfl

/-- C10: a None-valued mapping entry is stored as a NULL row (not the string
form), and when a key is added only with None values and had no prior rows,
the effective fact mapping built on read skips it entirely. -/
theorem c10_null_skipped (db db₂ : DB) (pid : ℕ) (m : List (String × PyVal))
    (k : String)
    (h : add_proposal_data db pid m = some db₂)
    (hk : (k, PyVal.pyNone) ∈ m) :
    (k, (none : Option String)) ∈ rowsFor db₂ pid
    ∧ ((∀ kv ∈ m, kv.1 = k → kv.2 = PyVal.pyNone) →
       (∀ e ∈ rowsFor db pid, e.1 ≠ k) →
       lookup (get_proposal_data_as_dict (rowsFor db₂ pid)) k = none) := by
  obtain ⟨hc, rfl⟩ := add_proposal_data_some db db₂ pid m h
  have hrows := rowsFor_add db pid m
  rw [hrows]
  constructor
  · refine List.mem_append_right _ ?_
    have : ((k, PyVal.pyNone).1, stringifyVal (k, PyVal.pyNone).2)
        ∈ m.map (fun kv => (kv.1, stringifyVal kv.2)) :=
      List.mem_map_of_mem _ hk
    simpa [stringifyVal] using this
  · intro honly hold
    unfold get_proposal_data_as_dict
    apply lookup_dict_foldl_none
    · intro e he hek
      rcases List.mem_append.mp he with hl | hr
      · exact absurd hek (hold e hl)
      · obtain ⟨kv, hkv, rfl⟩ := List.mem_map.mp hr
        have := honly kv hkv hek
        rw [this]
        rfl
    · rfl

/-- C10 witness: a key added only as None never shows up in the effective
fact mapping. -/
theorem c10_null_skipped_witness :
    (("phone", (none : Option String))
        ∈ rowsFor (DB.mk [2] [(2, "other", some "1"), (2, "phone", none)]) 2)
    ∧ lookup (get_proposal_data_as_dict
        (rowsFor (DB.mk [2] [(2, "other", some "1"), (2, "phone", none)]) 2)) "phone"
      = none := by
  have h := c10_null_skipped (DB.mk [2] [(2, "other", some "1")])
    (DB.mk [2] [(2, "other", some "1"), (2, "phone", none)])
    2 [("phone", PyVal.pyNone)] "phone" (by decide) (by decide)
  exact ⟨h.1, h.2 (by decide) (by decide)⟩

end PropGen
